import Mathlib

/-!
Verification of the caching / background-refresh subsystem of `app.py`
(lderuiter-sc/googletrends).

The embedding models:
  * the two payload shapes (the leaderboard "items" list and the timeseries
    dates/series object);
  * the static fallbacks `get_fallback_data` and `get_fallback_timeseries`
    (the latter is parametrised by the number of months derived from the
    current date and by the list of `random.randint(-2, 2)` draws);
  * the per-cycle sub-query loops of `fetch_fresh_data` and
    `fetch_timeseries_data`, as functions over lists of classified sub-query
    outcomes (success with data / empty result / missing keyword columns /
    raised exception), with the in-cycle `consecutive_failures` counter and
    the early-abort `break` exactly as in the source;
  * the top-level try/except of both fetch functions, as an `Except`-valued
    body wrapped by a catch-all that returns `none`;
  * the Flask route handlers `serve_data`, `serve_timeseries`,
    `refresh_data`, `refresh_timeseries`, `status`, `health_check` as
    explicit state-passing functions over the module-level cache variables
    (`cached_data`, `cache_timestamp`, `cached_timeseries`,
    `timeseries_cache_timestamp`).  Each handler takes the value the fetch
    call would return as an `Option` argument (the fetch itself is modelled
    separately) and reports, besides its HTTP status and payload, the new
    cache state and whether the upstream fetch function was invoked.

Time is modelled as `Int` seconds; `timedelta(hours=6)` is 21600 and
`timedelta(hours=24)` is 86400.  Wall-clock sleeps (jitter, punitive
delays) have no observable effect on any modelled result and are omitted.
The JSON `metadata` block of the timeseries payloads is determined by the
current date (plus, for fresh fetches, the exact timestamp) and is omitted
from the payload model.
-/

/-- Leaderboard payload: the `items` list of label/value pairs produced by
`fetch_fresh_data` and `get_fallback_data`. -/
structure LbPayload where
  items : List (String × Int)
deriving DecidableEq

/-- Timeseries payload: month labels plus one `(country, values)` series per
country, as produced by `fetch_timeseries_data` and
`get_fallback_timeseries`. -/
structure TsPayload where
  dates : List String
  series : List (String × List Int)
deriving DecidableEq

/-- Month abbreviations as produced by `strftime('%b')` in an English
locale. -/
def monthNames : List String :=
  ["Jan", "Feb", "Mar", "Apr", "May", "Jun",
   "Jul", "Aug", "Sep", "Oct", "Nov", "Dec"]

/-- Month labels from January 2025 up to the current month: the label list
built both by the `while start_date <= current_date` loop of
`get_fallback_timeseries` and by the monthly reindexing of
`fetch_timeseries_data`.  `numMonths` is the number of months between
January 2025 and the current date, inclusive. -/
def monthLabels (numMonths : Nat) : List String :=
  (List.range numMonths).map (fun i => monthNames.getD (i % 12) "")

/-- The static leaderboard fallback returned by `get_fallback_data`
(app.py lines 272-287). -/
def get_fallback_data : LbPayload :=
  ⟨[("Belgium", 202), ("United Kingdom", 150), ("United States", 125),
    ("France", 95), ("United Arab Emirates", 85), ("Netherlands", 72),
    ("Germany", 65), ("Sweden", 58), ("Norway", 45), ("Denmark", 38)]⟩

/-- The `base_values` dictionary of `get_fallback_timeseries`, in insertion
order. -/
def fb_base_values : List (String × Int) :=
  [("Belgium", 45), ("France", 35), ("United Arab Emirates", 20),
   ("United Kingdom", 38), ("United States", 42)]

/-- The timeseries fallback `get_fallback_timeseries` (app.py lines
289-330).  `numMonths` is derived from the current date; `draws` holds the
values returned by the successive `random.randint(-2, 2)` calls, one inner
list per country in `fb_base_values` order.  Each data point is
`base + i * 3 + draw`. -/
def get_fallback_timeseries (numMonths : Nat) (draws : List (List Int)) : TsPayload :=
  { dates := monthLabels numMonths,
    series := fb_base_values.enum.map (fun p =>
      (p.2.1, (List.range numMonths).map (fun i =>
        p.2.2 + 3 * Int.ofNat i + ((draws.getD p.1 []).getD i 0)))) }

/-- The probe `is_heavily_rate_limited` (app.py lines 37-49): it issues one
test query; `probe = none` models the query succeeding (return `False`),
`probe = some has429` models a raised exception whose string representation
contains "429" iff `has429` (return `True` iff `has429`). -/
def is_heavily_rate_limited (probe : Option Bool) : Bool :=
  match probe with
  | none => false
  | some has429 => has429

/-- Classified outcome of one leaderboard sub-query (one keyword) inside
`fetch_fresh_data`: a non-empty `interest_by_region` frame carrying its
rows, an empty frame, or a raised exception (with or without "429" in its
message). -/
inductive LOutcome
  | success (rows : List (String × Int))
  | empty
  | err (is429 : Bool)
deriving DecidableEq

/-- Loop state of the keyword loop in `fetch_fresh_data`: the in-cycle
`consecutive_failures` counter and the accumulated `all_data` list. -/
structure LbLoopState where
  failures : Nat
  all_data : List (List (String × Int))
deriving DecidableEq

/-- State at entry of the keyword loop in `fetch_fresh_data`. -/
def lbLoopStart : LbLoopState := ⟨0, []⟩

/-- The keyword loop of `fetch_fresh_data` (app.py lines 63-98), over an
arbitrary list of classified sub-query outcomes (the source iterates the
`KEYWORDS` list).  Returns the final loop state and the number of
sub-queries actually processed before the loop ended.  A non-empty result
appends its rows and resets the counter; an empty result changes nothing;
an exception increments the counter and, if it has reached 2, `break`s out
of the loop before any further sub-query. -/
def lbLoop : LbLoopState → List LOutcome → LbLoopState × Nat
  | st, [] => (st, 0)
  | st, LOutcome.success rows :: rest =>
      let r := lbLoop ⟨0, st.all_data ++ [rows]⟩ rest
      (r.1, r.2 + 1)
  | st, LOutcome.empty :: rest =>
      let r := lbLoop st rest
      (r.1, r.2 + 1)
  | st, LOutcome.err _ :: rest =>
      if st.failures + 1 ≥ 2 then (⟨st.failures + 1, st.all_data⟩, 1)
      else
        let r := lbLoop ⟨st.failures + 1, st.all_data⟩ rest
        (r.1, r.2 + 1)

/-- The `EXCLUDED_COUNTRIES` list of `fetch_fresh_data` (app.py lines
107-120). -/
def lb_excluded : List String :=
  ["Palau", "Grenada", "St. Pierre & Miquelon", "Mayotte", "St. Helena",
   "Wallis & Futuna", "Faroe Islands", "San Marino", "Liechtenstein",
   "Andorra", "Monaco", "Nauru", "Tuvalu", "Vatican City", "Marshall Islands",
   "Micronesia", "Kiribati", "Samoa", "Tonga", "Dominica", "St. Lucia",
   "Barbados", "St. Vincent & Grenadines", "Antigua & Barbuda", "Seychelles",
   "Maldives", "Guam", "American Samoa", "Northern Mariana Islands",
   "U.S. Virgin Islands", "British Virgin Islands", "Cayman Islands",
   "Turks & Caicos Islands", "Bermuda", "Anguilla", "Montserrat",
   "Falkland Islands", "Greenland", "French Polynesia", "New Caledonia",
   "French Guiana", "Martinique", "Guadeloupe", "Réunion", "Gibraltar",
   "Isle of Man", "Jersey", "Guernsey", "Djibouti", "Comoros",
   "São Tomé & Príncipe", "Guinea-Bissau"]

/-- Group the concatenated rows by country, summing the interest values
(the `groupby('country').agg(sum)` step), keyed in order of first
appearance. -/
def lb_group_sum (rows : List (String × Int)) : List (String × Int) :=
  rows.foldl (fun acc r =>
    if acc.any (fun p => p.1 = r.1) then
      acc.map (fun p => if p.1 = r.1 then (p.1, p.2 + r.2) else p)
    else acc ++ [r]) []

/-- Insert one row into a list sorted by descending interest value. -/
def lb_sort_insert (x : String × Int) : List (String × Int) → List (String × Int)
  | [] => [x]
  | y :: ys => if x.2 ≥ y.2 then x :: y :: ys else y :: lb_sort_insert x ys

/-- Sort rows by descending interest value (the `sort_values('interest',
ascending=False)` step; tie order is unspecified in the source and
irrelevant to every claim). -/
def lb_sort_desc : List (String × Int) → List (String × Int)
  | [] => []
  | x :: xs => lb_sort_insert x (lb_sort_desc xs)

/-- The aggregation block of `fetch_fresh_data` (app.py lines 100-130):
concatenate the accumulated frames, group-sum by country, keep strictly
positive totals, sort descending, drop the excluded small territories and
take the top 10. -/
def lb_aggregate (all_data : List (List (String × Int))) : LbPayload :=
  let df := all_data.flatten
  let grouped := lb_group_sum df
  let positive := grouped.filter (fun p => 0 < p.2)
  let sorted := lb_sort_desc positive
  let filtered := sorted.filter (fun p => !(lb_excluded.contains p.1))
  ⟨filtered.take 10⟩

/-- Body of `fetch_fresh_data` (app.py lines 51-139) inside its top-level
`try`.  Exceptions that escape the per-keyword handler are modelled by
`aggExn`: `some e` means the post-loop processing raises `e` (in the source
this is any exception from the pandas pipeline; per-keyword exceptions are
already the `LOutcome.err` outcomes and never escape the inner handler).
Returns `Except.error` when the body raises, otherwise the `Option` value
the Python function would return. -/
def fetch_fresh_data_body (probe : Option Bool) (outs : List LOutcome)
    (aggExn : Option String) : Except String (Option LbPayload) :=
  if is_heavily_rate_limited probe then Except.ok none
  else
    let st := (lbLoop lbLoopStart outs).1
    if st.all_data.isEmpty then Except.ok none
    else
      match aggExn with
      | some e => Except.error e
      | none => Except.ok (some (lb_aggregate st.all_data))

/-- The function `fetch_fresh_data`: its body with the top-level
`except Exception: return None` handler applied. -/
def fetch_fresh_data (probe : Option Bool) (outs : List LOutcome)
    (aggExn : Option String) : Option LbPayload :=
  match fetch_fresh_data_body probe outs aggExn with
  | Except.ok v => v
  | Except.error _ => none

/-- Classified outcome of one timeseries sub-query (one country) inside
`fetch_timeseries_data`: a frame with the requested keyword columns
(carrying the country name and its monthly values), an empty frame, a
non-empty frame missing every requested keyword column, or a raised
exception. -/
inductive TOutcome
  | success (country : String) (vals : List Int)
  | empty
  | noKeywordCols
  | err (is429 : Bool)
deriving DecidableEq

/-- Loop state of the country loop in `fetch_timeseries_data`: the in-cycle
`consecutive_failures` counter, the accumulated `country_data` entries (in
insertion order) and whether `date_labels` has been set. -/
structure TsLoopState where
  failures : Nat
  country_data : List (String × List Int)
  has_labels : Bool
deriving DecidableEq

/-- State at entry of the country loop in `fetch_timeseries_data`. -/
def tsLoopStart : TsLoopState := ⟨0, [], false⟩

/-- The country loop of `fetch_timeseries_data` (app.py lines 169-239),
over an arbitrary list of classified sub-query outcomes (the source
iterates `TRACKED_COUNTRIES`; every tracked country has a geo code, so the
missing-geo-code `continue` is dead).  A success stores the country's
values, sets the labels and resets the counter, then runs the (never
firing) threshold check; an empty frame and an exception increment the
counter and `break` when it reaches 3; a frame missing the keyword columns
increments the counter and `continue`s, skipping the threshold check
(app.py lines 192-195). -/
def tsLoop : TsLoopState → List TOutcome → TsLoopState × Nat
  | st, [] => (st, 0)
  | st, TOutcome.success c vals :: rest =>
      let st2 : TsLoopState := ⟨0, st.country_data ++ [(c, vals)], true⟩
      if st2.failures ≥ 3 then (st2, 1)
      else
        let r := tsLoop st2 rest
        (r.1, r.2 + 1)
  | st, TOutcome.empty :: rest =>
      if st.failures + 1 ≥ 3 then (⟨st.failures + 1, st.country_data, st.has_labels⟩, 1)
      else
        let r := tsLoop ⟨st.failures + 1, st.country_data, st.has_labels⟩ rest
        (r.1, r.2 + 1)
  | st, TOutcome.noKeywordCols :: rest =>
      let r := tsLoop ⟨st.failures + 1, st.country_data, st.has_labels⟩ rest
      (r.1, r.2 + 1)
  | st, TOutcome.err _ :: rest =>
      if st.failures + 1 ≥ 3 then (⟨st.failures + 1, st.country_data, st.has_labels⟩, 1)
      else
        let r := tsLoop ⟨st.failures + 1, st.country_data, st.has_labels⟩ rest
        (r.1, r.2 + 1)

/-- Body of `fetch_timeseries_data` (app.py lines 141-270) inside its
top-level `try`, analogous to `fetch_fresh_data_body`.  The result payload
is built from the accumulated `country_data` and the month labels
(`date_labels` equals `monthLabels numMonths` whenever it has been set). -/
def fetch_timeseries_data_body (probe : Option Bool) (outs : List TOutcome)
    (numMonths : Nat) (aggExn : Option String) : Except String (Option TsPayload) :=
  if is_heavily_rate_limited probe then Except.ok none
  else
    let st := (tsLoop tsLoopStart outs).1
    if !st.country_data.isEmpty && st.has_labels then
      match aggExn with
      | some e => Except.error e
      | none => Except.ok (some ⟨monthLabels numMonths, st.country_data⟩)
    else Except.ok none

/-- The function `fetch_timeseries_data`: its body with the top-level
`except Exception: return None` handler applied. -/
def fetch_timeseries_data (probe : Option Bool) (outs : List TOutcome)
    (numMonths : Nat) (aggExn : Option String) : Option TsPayload :=
  match fetch_timeseries_data_body probe outs numMonths aggExn with
  | Except.ok v => v
  | Except.error _ => none

/-- The module-level cache variables of app.py (lines 29-35):
`cached_data`, `cache_timestamp`, `cached_timeseries`,
`timeseries_cache_timestamp`.  Timestamps are `Int` seconds. -/
structure CacheState where
  cached_data : Option LbPayload
  cache_timestamp : Option Int
  cached_timeseries : Option TsPayload
  timeseries_cache_timestamp : Option Int
deriving DecidableEq

/-- Result of a read endpoint: HTTP status, JSON payload, the cache state
after the request, and whether the handler invoked the upstream fetch
function during the request. -/
structure ServeResult (P : Type) where
  status : Nat
  payload : P
  state : CacheState
  fetchInvoked : Bool
deriving DecidableEq

/-- Result of a forced-refresh endpoint: HTTP status, the value of the
`status` field of the JSON body when present (`some "rate_limited"` in
the 429 branch), the cache state after the request, and whether the
handler invoked the upstream fetch function. -/
structure RefreshResult where
  status : Nat
  status_field : Option String
  state : CacheState
  fetchInvoked : Bool
deriving DecidableEq

/-- The `cache_valid` test of `serve_data` (app.py lines 340-342):
`cached_data is not None and cache_timestamp is not None and
now - cache_timestamp < timedelta(hours=cache_duration_hours)`, with
`cache_duration_hours = 6`. -/
def lb_cache_valid (st : CacheState) (now : Int) : Bool :=
  match st.cached_data, st.cache_timestamp with
  | some _, some t => decide (now - t < 21600)
  | _, _ => false

/-- The `cache_valid` test of `serve_timeseries` (app.py lines 374-376),
with the duration hardcoded to 24 hours. -/
def ts_cache_valid (st : CacheState) (now : Int) : Bool :=
  match st.cached_timeseries, st.timeseries_cache_timestamp with
  | some _, some t => decide (now - t < 86400)
  | _, _ => false

/-- The cache-miss tail of `serve_data` (app.py lines 350-364):
`fetchResult` is the value returned by the `fetch_fresh_data()` call the
handler makes here.  On success the pair `cached_data`/`cache_timestamp`
is assigned and the fresh payload served; on failure the fallback is
served and the cache is left untouched. -/
def serve_data_fetch (st : CacheState) (now : Int)
    (fetchResult : Option LbPayload) : ServeResult LbPayload :=
  match fetchResult with
  | some p =>
      ⟨200, p, { st with cached_data := some p, cache_timestamp := some now }, true⟩
  | none => ⟨200, get_fallback_data, st, true⟩

/-- The route handler `serve_data` (app.py lines 332-364, route `/`).  If
the cache is valid the cached payload is served unchanged; otherwise the
handler falls through to `serve_data_fetch`. -/
def serve_data (st : CacheState) (now : Int)
    (fetchResult : Option LbPayload) : ServeResult LbPayload :=
  match st.cached_data, st.cache_timestamp with
  | some d, some t =>
      if now - t < 21600 then ⟨200, d, st, false⟩
      else serve_data_fetch st now fetchResult
  | some _, none => serve_data_fetch st now fetchResult
  | none, _ => serve_data_fetch st now fetchResult

/-- The cache-miss tail of `serve_timeseries` (app.py lines 384-398):
`fetchResult` is the value returned by the `fetch_timeseries_data()` call;
`numMonths` and `draws` feed `get_fallback_timeseries` in the failure
branch. -/
def serve_timeseries_fetch (st : CacheState) (now : Int)
    (fetchResult : Option TsPayload) (numMonths : Nat)
    (draws : List (List Int)) : ServeResult TsPayload :=
  match fetchResult with
  | some p =>
      ⟨200, p,
       { st with cached_timeseries := some p, timeseries_cache_timestamp := some now },
       true⟩
  | none => ⟨200, get_fallback_timeseries numMonths draws, st, true⟩

/-- The route handler `serve_timeseries` (app.py lines 366-398, route
`/timeseries`). -/
def serve_timeseries (st : CacheState) (now : Int)
    (fetchResult : Option TsPayload) (numMonths : Nat)
    (draws : List (List Int)) : ServeResult TsPayload :=
  match st.cached_timeseries, st.timeseries_cache_timestamp with
  | some d, some t =>
      if now - t < 86400 then ⟨200, d, st, false⟩
      else serve_timeseries_fetch st now fetchResult numMonths draws
  | some _, none => serve_timeseries_fetch st now fetchResult numMonths draws
  | none, _ => serve_timeseries_fetch st now fetchResult numMonths draws

/-- The route handler `refresh_data` (app.py lines 438-466, route
`/refresh`).  If `is_heavily_rate_limited` reports heavy rate limiting the
request is rejected with 429, a `"rate_limited"` status field, no fetch
invocation and an unchanged cache; otherwise `fetch_fresh_data` is
invoked: on success the cache pair is assigned and 200 returned, on
failure 500 is returned with the cache untouched. -/
def refresh_data (probe : Option Bool) (fetchResult : Option LbPayload)
    (st : CacheState) (now : Int) : RefreshResult :=
  if is_heavily_rate_limited probe then ⟨429, some "rate_limited", st, false⟩
  else
    match fetchResult with
    | some p =>
        ⟨200, none, { st with cached_data := some p, cache_timestamp := some now }, true⟩
    | none => ⟨500, none, st, true⟩

/-- The route handler `refresh_timeseries` (app.py lines 468-498, route
`/refresh-timeseries`), analogous to `refresh_data`. -/
def refresh_timeseries (probe : Option Bool) (fetchResult : Option TsPayload)
    (st : CacheState) (now : Int) : RefreshResult :=
  if is_heavily_rate_limited probe then ⟨429, some "rate_limited", st, false⟩
  else
    match fetchResult with
    | some p =>
        ⟨200, none,
         { st with cached_timeseries := some p, timeseries_cache_timestamp := some now },
         true⟩
    | none => ⟨500, none, st, true⟩

/-- The route handler `status` (app.py lines 405-436, route `/status`):
it only reads the cache variables, so its effect on the cache state is the
identity. -/
def status_route (st : CacheState) : CacheState := st

/-- The route handler `health_check` (app.py lines 400-403, route
`/health`): it touches no cache variable. -/
def health_check (st : CacheState) : CacheState := st

/-- The invariant that each cached payload is `none` exactly when its
timestamp is `none`, for both cached datasets. -/
def cacheInv (st : CacheState) : Prop :=
  (st.cached_data = none ↔ st.cache_timestamp = none) ∧
  (st.cached_timeseries = none ↔ st.timeseries_cache_timestamp = none)

/-- Modelled from the spec: src/app.py contains no FailureTracker and no
backoff function (the only cross-request gating is the live
`is_heavily_rate_limited` probe); spec section 4.1 defines
`shouldDelay` by `delay = min(base * growth_factor ^ consecutive_failures,
cap)`.  All quantities are in arbitrary time units. -/
def shouldDelay (base growth cap n : Nat) : Nat :=
  min (base * growth ^ n) cap

/-- Claim-rule reference for the `fetch_fresh_data` keyword loop, written
from the claim's words for comparison with `lbLoop`: the in-cycle failure
counter is incremented by each errored sub-query, reset to zero by a
successful sub-query with data, left unchanged by an empty result, and as
soon as it reaches the threshold 2 the cycle aborts before issuing any of
the remaining sub-queries.  Returns the final counter and the number of
sub-queries processed. -/
def lbClaimLoop : Nat → List LOutcome → Nat × Nat
  | f, [] => (f, 0)
  | _, LOutcome.success _ :: rest =>
      let r := lbClaimLoop 0 rest
      (r.1, r.2 + 1)
  | f, LOutcome.empty :: rest =>
      let r := lbClaimLoop f rest
      (r.1, r.2 + 1)
  | f, LOutcome.err _ :: rest =>
      if f + 1 ≥ 2 then (f + 1, 1)
      else
        let r := lbClaimLoop (f + 1) rest
        (r.1, r.2 + 1)

/-- Claim-rule reference for the `fetch_timeseries_data` country loop,
written from the claim's words for comparison with `tsLoop`: every
counter-incrementing sub-query outcome aborts the cycle as soon as the
counter reaches the threshold 3, before any remaining sub-query. -/
def tsClaimLoop : Nat → List TOutcome → Nat × Nat
  | f, [] => (f, 0)
  | _, TOutcome.success _ _ :: rest =>
      let r := tsClaimLoop 0 rest
      (r.1, r.2 + 1)
  | f, TOutcome.empty :: rest =>
      if f + 1 ≥ 3 then (f + 1, 1)
      else
        let r := tsClaimLoop (f + 1) rest
        (r.1, r.2 + 1)
  | f, TOutcome.noKeywordCols :: rest =>
      if f + 1 ≥ 3 then (f + 1, 1)
      else
        let r := tsClaimLoop (f + 1) rest
        (r.1, r.2 + 1)
  | f, TOutcome.err _ :: rest =>
      if f + 1 ≥ 3 then (f + 1, 1)
      else
        let r := tsClaimLoop (f + 1) rest
        (r.1, r.2 + 1)

/-- Case split for `serve_data`: either the cache is valid and the cached
payload is served with the state untouched and no fetch, or the handler
falls through to the cache-miss tail. -/
theorem serve_data_split (st : CacheState) (now : Int) (fr : Option LbPayload) :
    (∃ d, st.cached_data = some d ∧ serve_data st now fr = ⟨200, d, st, false⟩) ∨
    serve_data st now fr = serve_data_fetch st now fr := by
  obtain ⟨cd, ct, cts, tst⟩ := st
  cases cd with
  | none => right; rfl
  | some d =>
    cases ct with
    | none => right; rfl
    | some t =>
      by_cases h : now - t < 21600
      · exact Or.inl ⟨d, rfl, by simp [serve_data, h]⟩
      · right; simp [serve_data, h]

/-- Case split for `serve_timeseries`, analogous to `serve_data_split`. -/
theorem serve_timeseries_split (st : CacheState) (now : Int) (fr : Option TsPayload)
    (nM : Nat) (draws : List (List Int)) :
    (∃ d, st.cached_timeseries = some d ∧
      serve_timeseries st now fr nM draws = ⟨200, d, st, false⟩) ∨
    serve_timeseries st now fr nM draws = serve_timeseries_fetch st now fr nM draws := by
  obtain ⟨cd, ct, cts, tst⟩ := st
  cases cts with
  | none => right; rfl
  | some d =>
    cases tst with
    | none => right; rfl
    | some t =>
      by_cases h : now - t < 86400
      · exact Or.inl ⟨d, rfl, by simp [serve_timeseries, h]⟩
      · right; simp [serve_timeseries, h]

/-- C1 counterexample: with an empty cache, both read handlers invoke the
upstream fetch synchronously, contradicting the claim that the read
operation never invokes the upstream fetch for every cache state. -/
theorem C1_counterexample :
    (serve_data ⟨none, none, none, none⟩ 0 none).fetchInvoked = true ∧
    (serve_timeseries ⟨none, none, none, none⟩ 0 none 1 []).fetchInvoked = true :=
  ⟨rfl, rfl⟩

/-- C1 (amended): the read operation is a pure read of the cached snapshot
that never invokes the upstream fetch exactly when the cache is valid
(payload and timestamp present and younger than the configured duration);
when the cache is missing or expired the read handler itself invokes the
upstream fetch before responding. -/
theorem C1_read_purity (st : CacheState) (now : Int) (d : LbPayload) (t : Int)
    (dts : TsPayload) (u : Int) (frL : Option LbPayload) (frT : Option TsPayload)
    (nM : Nat) (draws : List (List Int)) :
    (st.cached_data = some d → st.cache_timestamp = some t → now - t < 21600 →
      serve_data st now frL = ⟨200, d, st, false⟩) ∧
    (lb_cache_valid st now = false → (serve_data st now frL).fetchInvoked = true) ∧
    (st.cached_timeseries = some dts → st.timeseries_cache_timestamp = some u →
      now - u < 86400 →
      serve_timeseries st now frT nM draws = ⟨200, dts, st, false⟩) ∧
    (ts_cache_valid st now = false →
      (serve_timeseries st now frT nM draws).fetchInvoked = true) := by
  obtain ⟨cd, ct, cts, tst⟩ := st
  refine ⟨?_, ?_, ?_, ?_⟩
  · intro h1 h2 h3
    subst h1; subst h2
    simp [serve_data, h3]
  · intro hv
    cases cd with
    | none => cases frL <;> rfl
    | some d2 =>
      cases ct with
      | none => cases frL <;> rfl
      | some t2 =>
        simp [lb_cache_valid] at hv
        cases frL <;> simp [serve_data, serve_data_fetch, not_lt.mpr hv]
  · intro h1 h2 h3
    subst h1; subst h2
    simp [serve_timeseries, h3]
  · intro hv
    cases cts with
    | none => cases frT <;> rfl
    | some d2 =>
      cases tst with
      | none => cases frT <;> rfl
      | some t2 =>
        simp [ts_cache_valid] at hv
        cases frT <;> simp [serve_timeseries, serve_timeseries_fetch, not_lt.mpr hv]

/-- Witness for the amended C1: a state whose leaderboard cache is valid
is served as a pure read, and one whose timeseries cache is absent
triggers the fetch. -/
theorem C1_read_purity_witness :
    serve_data ⟨some get_fallback_data, some 0, none, none⟩ 0 none =
      ⟨200, get_fallback_data, ⟨some get_fallback_data, some 0, none, none⟩, false⟩ ∧
    (serve_timeseries ⟨some get_fallback_data, some 0, none, none⟩ 0 none 1 []).fetchInvoked
      = true :=
  ⟨(C1_read_purity ⟨some get_fallback_data, some 0, none, none⟩ 0 get_fallback_data 0
      ⟨[], []⟩ 0 none none 1 []).1 rfl rfl (by decide),
   (C1_read_purity ⟨some get_fallback_data, some 0, none, none⟩ 0 get_fallback_data 0
      ⟨[], []⟩ 0 none none 1 []).2.2.2 rfl⟩

/-- C2: for every cache state and every fetch outcome, both read handlers
answer HTTP 200 and the served payload is exactly one of the freshly
fetched payload, the previously cached payload, or the fallback payload. -/
theorem C2_read_path_total (st : CacheState) (now : Int) (frL : Option LbPayload)
    (frT : Option TsPayload) (nM : Nat) (draws : List (List Int)) :
    ((serve_data st now frL).status = 200 ∧
      ((∃ p, frL = some p ∧ (serve_data st now frL).payload = p) ∨
       (∃ p, st.cached_data = some p ∧ (serve_data st now frL).payload = p) ∨
       (serve_data st now frL).payload = get_fallback_data)) ∧
    ((serve_timeseries st now frT nM draws).status = 200 ∧
      ((∃ p, frT = some p ∧ (serve_timeseries st now frT nM draws).payload = p) ∨
       (∃ p, st.cached_timeseries = some p ∧
          (serve_timeseries st now frT nM draws).payload = p) ∨
       (serve_timeseries st now frT nM draws).payload =
          get_fallback_timeseries nM draws)) := by
  constructor
  · rcases serve_data_split st now frL with ⟨d, hd, he⟩ | he
    · rw [he]; exact ⟨rfl, Or.inr (Or.inl ⟨d, hd, rfl⟩)⟩
    · rw [he]
      cases frL with
      | some p => exact ⟨rfl, Or.inl ⟨p, rfl, rfl⟩⟩
      | none => exact ⟨rfl, Or.inr (Or.inr rfl)⟩
  · rcases serve_timeseries_split st now frT nM draws with ⟨d, hd, he⟩ | he
    · rw [he]; exact ⟨rfl, Or.inr (Or.inl ⟨d, hd, rfl⟩)⟩
    · rw [he]
      cases frT with
      | some p => exact ⟨rfl, Or.inl ⟨p, rfl, rfl⟩⟩
      | none => exact ⟨rfl, Or.inr (Or.inr rfl)⟩

/-- C7: a fetch cycle that ends in failure (the fetch returns no payload)
leaves the four cache variables exactly as they were, on the read path and
on the forced-refresh path alike. -/
theorem C7_failed_cycle_frame (st : CacheState) (now : Int) (probe : Option Bool)
    (nM : Nat) (draws : List (List Int)) :
    (serve_data st now none).state = st ∧
    (serve_timeseries st now none nM draws).state = st ∧
    (refresh_data probe none st now).state = st ∧
    (refresh_timeseries probe none st now).state = st := by
  refine ⟨?_, ?_, ?_, ?_⟩
  · rcases serve_data_split st now none with ⟨d, _, he⟩ | he
    · rw [he]
    · rw [he]; rfl
  · rcases serve_timeseries_split st now none nM draws with ⟨d, _, he⟩ | he
    · rw [he]
    · rw [he]; rfl
  · unfold refresh_data; split <;> rfl
  · unfold refresh_timeseries; split <;> rfl

/-- C3: spec-modelled backoff policy.  The source has no backoff function;
`shouldDelay` is modelled from the spec's formula, and for every
consecutive-failure count it equals `min (base * growth ^ n) cap`, is
monotonically non-decreasing in the count (for any growth factor of at
least 1) and never exceeds the cap. -/
theorem C3_backoff_policy (base growth cap m n : Nat) :
    shouldDelay base growth cap n = min (base * growth ^ n) cap ∧
    (1 ≤ growth → m ≤ n →
      shouldDelay base growth cap m ≤ shouldDelay base growth cap n) ∧
    shouldDelay base growth cap n ≤ cap := by
  refine ⟨rfl, ?_, min_le_right _ _⟩
  intro hg hmn
  exact min_le_min (Nat.mul_le_mul_left _ (Nat.pow_le_pow_right hg hmn)) le_rfl

/-- Witness for C3 at concrete values. -/
theorem C3_backoff_policy_witness :
    shouldDelay 60 2 7200 3 ≤ shouldDelay 60 2 7200 4 ∧
    shouldDelay 60 2 7200 10 ≤ 7200 :=
  ⟨(C3_backoff_policy 60 2 7200 3 4).2.1 (by decide) (by decide),
   (C3_backoff_policy 60 2 7200 0 10).2.2⟩

/-- C5 counterexample: two evaluations of `get_fallback_timeseries` at the
same date (same number of months) but with different `random.randint(-2, 2)`
draws (here 0 versus 1, both legal draws) return different payloads, so the
timeseries fallback is not a fixed static value. -/
theorem C5_counterexample :
    get_fallback_timeseries 1 [[0], [0], [0], [0], [0]] ≠
      get_fallback_timeseries 1 [[1], [1], [1], [1], [1]] := by
  decide

/-- C5 (amended): the leaderboard fallback `get_fallback_data` is a fixed
static value (any two evaluations are equal), and the timeseries fallback's
month labels and country names are determined by the date alone, but its
series values additionally depend on the random jitter drawn at each call,
so two evaluations at the same date may differ in the values. -/
theorem C5_fallback_static (nM : Nat) (d1 d2 : List (List Int)) (x y : LbPayload)
    (hx : x = get_fallback_data) (hy : y = get_fallback_data) :
    x = y ∧
    (get_fallback_timeseries nM d1).dates = (get_fallback_timeseries nM d2).dates ∧
    (get_fallback_timeseries nM d1).series.map Prod.fst =
      (get_fallback_timeseries nM d2).series.map Prod.fst := by
  subst hx; subst hy
  refine ⟨rfl, rfl, ?_⟩
  simp [get_fallback_timeseries, List.map_map]

/-- Witness for the amended C5 at concrete draws. -/
theorem C5_fallback_static_witness :
    get_fallback_data = get_fallback_data ∧
    (get_fallback_timeseries 1 [[0]]).dates = (get_fallback_timeseries 1 [[2]]).dates ∧
    (get_fallback_timeseries 1 [[0]]).series.map Prod.fst =
      (get_fallback_timeseries 1 [[2]]).series.map Prod.fst :=
  C5_fallback_static 1 [[0]] [[2]] get_fallback_data get_fallback_data rfl rfl

/-- C8 counterexample: a forced refresh that is not rate limited but whose
fetch fails returns HTTP 500, not the HTTP 200 the claim asserts for every
non-rate-limited request. -/
theorem C8_counterexample :
    (refresh_data none none ⟨none, none, none, none⟩ 0).status = 500 ∧
    (refresh_data none none ⟨none, none, none, none⟩ 0).status ≠ 200 :=
  ⟨rfl, by decide⟩

/-- C8 (amended): a forced refresh during heavy rate limiting is rejected
with HTTP 429, a `"rate_limited"` status field, no fetch invocation and an
unchanged cache; otherwise the fetch is attempted and the endpoint returns
HTTP 200 with a summary when it succeeds and HTTP 500 with an error message
when it fails. -/
theorem C8_refresh_statuses (probe : Option Bool) (st : CacheState) (now : Int)
    (frL : Option LbPayload) (frT : Option TsPayload) (p : LbPayload) (q : TsPayload) :
    (is_heavily_rate_limited probe = true →
      refresh_data probe frL st now = ⟨429, some "rate_limited", st, false⟩ ∧
      refresh_timeseries probe frT st now = ⟨429, some "rate_limited", st, false⟩) ∧
    (is_heavily_rate_limited probe = false →
      (refresh_data probe (some p) st now).status = 200 ∧
      (refresh_data probe none st now).status = 500 ∧
      (refresh_timeseries probe (some q) st now).status = 200 ∧
      (refresh_timeseries probe none st now).status = 500) := by
  constructor
  · intro h
    exact ⟨by simp [refresh_data, h], by simp [refresh_timeseries, h]⟩
  · intro h
    exact ⟨by simp [refresh_data, h], by simp [refresh_data, h],
           by simp [refresh_timeseries, h], by simp [refresh_timeseries, h]⟩

/-- Witness for the amended C8: a rate-limited probe yields the 429
rejection, a successful probe with a successful fetch yields 200. -/
theorem C8_refresh_statuses_witness :
    refresh_data (some true) none ⟨none, none, none, none⟩ 0 =
      ⟨429, some "rate_limited", ⟨none, none, none, none⟩, false⟩ ∧
    (refresh_data none (some get_fallback_data) ⟨none, none, none, none⟩ 0).status = 200 :=
  ⟨((C8_refresh_statuses (some true) ⟨none, none, none, none⟩ 0 none none
      get_fallback_data ⟨[], []⟩).1 rfl).1,
   ((C8_refresh_statuses none ⟨none, none, none, none⟩ 0 none none
      get_fallback_data ⟨[], []⟩).2 rfl).1⟩

/-- C9: the pairing invariant — each cached payload is `none` exactly when
its timestamp is `none` — is preserved by every route handler, because the
pair is only ever assigned together after a successful fetch. -/
theorem C9_cache_pair_invariant (st : CacheState) (now : Int) (probe : Option Bool)
    (frL : Option LbPayload) (frT : Option TsPayload) (nM : Nat)
    (draws : List (List Int)) (h : cacheInv st) :
    cacheInv (serve_data st now frL).state ∧
    cacheInv (serve_timeseries st now frT nM draws).state ∧
    cacheInv (refresh_data probe frL st now).state ∧
    cacheInv (refresh_timeseries probe frT st now).state ∧
    cacheInv (status_route st) ∧
    cacheInv (health_check st) := by
  obtain ⟨h1, h2⟩ := h
  refine ⟨?_, ?_, ?_, ?_, ⟨h1, h2⟩, ⟨h1, h2⟩⟩
  · rcases serve_data_split st now frL with ⟨d, _, he⟩ | he
    · rw [he]; exact ⟨h1, h2⟩
    · rw [he]
      cases frL with
      | some p => exact ⟨by simp [serve_data_fetch], h2⟩
      | none => exact ⟨h1, h2⟩
  · rcases serve_timeseries_split st now frT nM draws with ⟨d, _, he⟩ | he
    · rw [he]; exact ⟨h1, h2⟩
    · rw [he]
      cases frT with
      | some p => exact ⟨h1, by simp [serve_timeseries_fetch]⟩
      | none => exact ⟨h1, h2⟩
  · by_cases hrl : is_heavily_rate_limited probe
    · simp [refresh_data, hrl]; exact ⟨h1, h2⟩
    · cases frL with
      | some p => simp [refresh_data, hrl]; exact ⟨by simp, h2⟩
      | none => simp [refresh_data, hrl]; exact ⟨h1, h2⟩
  · by_cases hrl : is_heavily_rate_limited probe
    · simp [refresh_timeseries, hrl]; exact ⟨h1, h2⟩
    · cases frT with
      | some p => simp [refresh_timeseries, hrl]; exact ⟨h1, by simp⟩
      | none => simp [refresh_timeseries, hrl]; exact ⟨h1, h2⟩

/-- Witness for C9 at the initial (all-`none`) state. -/
theorem C9_cache_pair_invariant_witness :
    cacheInv (serve_data ⟨none, none, none, none⟩ 0 none).state ∧
    cacheInv (serve_timeseries ⟨none, none, none, none⟩ 0 none 1 []).state ∧
    cacheInv (refresh_data none none ⟨none, none, none, none⟩ 0).state ∧
    cacheInv (refresh_timeseries none none ⟨none, none, none, none⟩ 0).state ∧
    cacheInv (status_route ⟨none, none, none, none⟩) ∧
    cacheInv (health_check ⟨none, none, none, none⟩) :=
  C9_cache_pair_invariant ⟨none, none, none, none⟩ 0 none none none 1 []
    (by simp [cacheInv])

/-- The keyword loop of `fetch_fresh_data` implements exactly the claim's
counter rule with threshold 2: same final counter, same number of
sub-queries processed. -/
theorem lbLoop_claim_eq (outs : List LOutcome) : ∀ st : LbLoopState,
    ((lbLoop st outs).1.failures, (lbLoop st outs).2) = lbClaimLoop st.failures outs := by
  induction outs with
  | nil => intro st; rfl
  | cons o rest ih =>
    intro st
    cases o with
    | success rows =>
        have h := ih ⟨0, st.all_data ++ [rows]⟩
        simp only [lbLoop, lbClaimLoop]
        rw [Prod.mk.injEq] at h ⊢
        exact ⟨h.1, by rw [h.2]⟩
    | empty =>
        have h := ih st
        simp only [lbLoop, lbClaimLoop]
        rw [Prod.mk.injEq] at h ⊢
        exact ⟨h.1, by rw [h.2]⟩
    | err b =>
        simp only [lbLoop, lbClaimLoop]
        by_cases hf : st.failures + 1 ≥ 2
        · rw [if_pos hf, if_pos hf]
        · rw [if_neg hf, if_neg hf]
          have h := ih ⟨st.failures + 1, st.all_data⟩
          rw [Prod.mk.injEq] at h ⊢
          exact ⟨h.1, by rw [h.2]⟩

/-- On outcome sequences without a missing-keyword-columns sub-query, the
country loop of `fetch_timeseries_data` implements exactly the claim's
counter rule with threshold 3. -/
theorem tsLoop_claim_eq (outs : List TOutcome) : ∀ st : TsLoopState,
    TOutcome.noKeywordCols ∉ outs →
    ((tsLoop st outs).1.failures, (tsLoop st outs).2) = tsClaimLoop st.failures outs := by
  induction outs with
  | nil => intro st _; rfl
  | cons o rest ih =>
    intro st hmem
    have hrest : TOutcome.noKeywordCols ∉ rest :=
      fun hr => hmem (List.mem_cons_of_mem _ hr)
    cases o with
    | success c v =>
        have h := ih ⟨0, st.country_data ++ [(c, v)], true⟩ hrest
        simp only [tsLoop, tsClaimLoop]
        rw [if_neg (by decide : ¬ (0 ≥ 3))]
        rw [Prod.mk.injEq] at h ⊢
        exact ⟨h.1, by rw [h.2]⟩
    | empty =>
        simp only [tsLoop, tsClaimLoop]
        by_cases hf : st.failures + 1 ≥ 3
        · rw [if_pos hf, if_pos hf]
        · rw [if_neg hf, if_neg hf]
          have h := ih ⟨st.failures + 1, st.country_data, st.has_labels⟩ hrest
          rw [Prod.mk.injEq] at h ⊢
          exact ⟨h.1, by rw [h.2]⟩
    | noKeywordCols => exact absurd (List.mem_cons_self _ _) hmem
    | err b =>
        simp only [tsLoop, tsClaimLoop]
        by_cases hf : st.failures + 1 ≥ 3
        · rw [if_pos hf, if_pos hf]
        · rw [if_neg hf, if_neg hf]
          have h := ih ⟨st.failures + 1, st.country_data, st.has_labels⟩ hrest
          rw [Prod.mk.injEq] at h ⊢
          exact ⟨h.1, by rw [h.2]⟩

/-- C4 counterexample: in the timeseries cycle the in-cycle failure
counter reaches the threshold 3 on the third sub-query (two errors
followed by a response missing the keyword columns), yet the cycle still
issues the two remaining sub-queries (5 processed in total, not 3),
because the missing-keyword-columns branch `continue`s past the abort
check. -/
theorem C4_counterexample :
    (tsLoop tsLoopStart
      [TOutcome.err true, TOutcome.err true, TOutcome.noKeywordCols]).1.failures = 3 ∧
    (tsLoop tsLoopStart
      [TOutcome.err true, TOutcome.err true, TOutcome.noKeywordCols,
       TOutcome.success "France" [1], TOutcome.success "Belgium" [2]]).2 = 5 :=
  ⟨rfl, rfl⟩

/-- C4 (amended): the in-cycle failure counter is incremented on each
errored sub-query, reset to zero by a successful sub-query with data, and
the cycle aborts before issuing any remaining sub-query as soon as the
counter reaches the threshold (2 for the leaderboard cycle, 3 for the
timeseries cycle) — except that in the timeseries cycle a sub-query whose
response lacks the requested keyword columns increments the counter while
skipping the abort check, deferring the abort.  Formally: the leaderboard
loop coincides with the claim-rule loop on all outcome sequences, and the
timeseries loop coincides with it on all sequences free of
missing-keyword-columns outcomes. -/
theorem C4_threshold_abort :
    (∀ (st : LbLoopState) (outs : List LOutcome),
      ((lbLoop st outs).1.failures, (lbLoop st outs).2) = lbClaimLoop st.failures outs) ∧
    (∀ (st : TsLoopState) (outs : List TOutcome), TOutcome.noKeywordCols ∉ outs →
      ((tsLoop st outs).1.failures, (tsLoop st outs).2) = tsClaimLoop st.failures outs) :=
  ⟨fun st outs => lbLoop_claim_eq outs st, fun st outs h => tsLoop_claim_eq outs st h⟩

/-- Witness for the amended C4 at a concrete outcome sequence. -/
theorem C4_threshold_abort_witness :
    ((tsLoop tsLoopStart [TOutcome.err true, TOutcome.empty]).1.failures,
     (tsLoop tsLoopStart [TOutcome.err true, TOutcome.empty]).2) =
      tsClaimLoop 0 [TOutcome.err true, TOutcome.empty] :=
  C4_threshold_abort.2 tsLoopStart [TOutcome.err true, TOutcome.empty] (by decide)

/-- C6 counterexample: in the timeseries cycle an empty result set is
counted as a failure — it increments the in-cycle counter (to 1 here),
contradicting the claim that an empty result is skipped without being
counted for every fetch cycle. -/
theorem C6_counterexample :
    (tsLoop tsLoopStart [TOutcome.empty]).1.failures = 1 :=
  rfl

/-- C6 (amended): in the leaderboard cycle an empty result set is skipped
without being counted — the counter and accumulated data are unchanged and
the cycle continues; in the timeseries cycle an empty result set
increments the in-cycle failure counter (and counts toward the abort
threshold 3), while still adding no data. -/
theorem C6_empty_result :
    (∀ (st : LbLoopState) (rest : List LOutcome),
      lbLoop st (LOutcome.empty :: rest) = ((lbLoop st rest).1, (lbLoop st rest).2 + 1)) ∧
    (∀ (st : TsLoopState) (rest : List TOutcome), st.failures + 1 < 3 →
      tsLoop st (TOutcome.empty :: rest) =
        ((tsLoop ⟨st.failures + 1, st.country_data, st.has_labels⟩ rest).1,
         (tsLoop ⟨st.failures + 1, st.country_data, st.has_labels⟩ rest).2 + 1)) ∧
    (∀ (st : TsLoopState) (rest : List TOutcome), st.failures + 1 ≥ 3 →
      tsLoop st (TOutcome.empty :: rest) =
        (⟨st.failures + 1, st.country_data, st.has_labels⟩, 1)) := by
  refine ⟨?_, ?_, ?_⟩
  · intro st rest
    simp only [lbLoop]
  · intro st rest h
    simp only [tsLoop]
    rw [if_neg (Nat.not_le.mpr h)]
  · intro st rest h
    simp only [tsLoop]
    rw [if_pos h]

/-- Witness for the amended C6 at concrete inputs. -/
theorem C6_empty_result_witness :
    tsLoop ⟨0, [], false⟩ [TOutcome.empty] =
      ((tsLoop ⟨1, [], false⟩ []).1, (tsLoop ⟨1, [], false⟩ []).2 + 1) ∧
    tsLoop ⟨2, [], false⟩ [TOutcome.empty] = (⟨3, [], false⟩, 1) :=
  ⟨C6_empty_result.2.1 ⟨0, [], false⟩ [] (by decide),
   C6_empty_result.2.2 ⟨2, [], false⟩ [] (by decide)⟩

/-- C10: both fetch functions are total at their interface — for every
probe outcome, every sub-query outcome sequence and every modelled body
exception they return either a payload or `none`, and whenever the body
raises, the top-level handler turns the exception into `none` rather than
propagating it. -/
theorem C10_fetch_total (probe : Option Bool) (outs : List LOutcome)
    (aggExn : Option String) (probe2 : Option Bool) (outs2 : List TOutcome)
    (nM : Nat) (aggExn2 : Option String) :
    ((∃ p, fetch_fresh_data probe outs aggExn = some p) ∨
      fetch_fresh_data probe outs aggExn = none) ∧
    (∀ e, fetch_fresh_data_body probe outs aggExn = Except.error e →
      fetch_fresh_data probe outs aggExn = none) ∧
    ((∃ p, fetch_timeseries_data probe2 outs2 nM aggExn2 = some p) ∨
      fetch_timeseries_data probe2 outs2 nM aggExn2 = none) ∧
    (∀ e, fetch_timeseries_data_body probe2 outs2 nM aggExn2 = Except.error e →
      fetch_timeseries_data probe2 outs2 nM aggExn2 = none) := by
  refine ⟨?_, ?_, ?_, ?_⟩
  · cases h : fetch_fresh_data probe outs aggExn with
    | some p => exact Or.inl ⟨p, rfl⟩
    | none => exact Or.inr rfl
  · intro e h
    unfold fetch_fresh_data
    rw [h]
  · cases h : fetch_timeseries_data probe2 outs2 nM aggExn2 with
    | some p => exact Or.inl ⟨p, rfl⟩
    | none => exact Or.inr rfl
  · intro e h
    unfold fetch_timeseries_data
    rw [h]

/-- Witness for C10 at inputs whose body raises. -/
theorem C10_fetch_total_witness :
    fetch_fresh_data none [LOutcome.success [("Belgium", 1)]] (some "x") = none ∧
    fetch_timeseries_data none [TOutcome.success "Belgium" [1]] 1 (some "y") = none :=
  ⟨(C10_fetch_total none [LOutcome.success [("Belgium", 1)]] (some "x")
      none [] 1 none).2.1 "x" rfl,
   (C10_fetch_total none [] none
      none [TOutcome.success "Belgium" [1]] 1 (some "y")).2.2.2 "y" rfl⟩
